import Mathlib

/-!
# Verification of the voice-interaction core of the Roberto42069 client

Shallow embedding of the continuous voice-interaction state machine of
`src/static/js/app.js` (class `RobotoApp`): utterance batching
(`processFinalTranscript` / `processVoiceBuffer`), speech-recognition
error handling and restart policy (`handleSpeechError`, `handleSpeechEnd`),
listening lifecycle (`startContinuousListening`, `resumeContinuousListening`),
speech output (`speakText`, `speakTextWithEmotion`), and the `/api/chat`
retry loop (`sendMessage`).

JavaScript strings are modelled as `List Char`; JS numbers used for
confidences, rates, pitches and volumes are modelled as `ℚ` (the code only
ever compares and averages values that are exact in ℚ).
-/

namespace Roboto

/-- The whitespace characters relevant to `String.prototype.trim` for the
transcripts this client handles. -/
def isWS (c : Char) : Bool := c = ' ' || c = '\t' || c = '\n' || c = '\r'

/-- JS `s.trim()`: drop leading and trailing whitespace. -/
def trim (l : List Char) : List Char :=
  ((l.dropWhile isWS).reverse.dropWhile isWS).reverse

/-- JS `array.join(' ')` on a list of strings. -/
def joinSpace : List (List Char) → List Char
  | [] => []
  | [t] => t
  | t :: ts => t ++ (' ' :: joinSpace ts)

/-- One entry of `this.voiceBuffer`, as pushed by `processFinalTranscript`:
`{ text: transcript, timestamp: now, confidence: this.getLastConfidence() }`. -/
structure Fragment where
  text : List Char
  timestamp : ℕ
  confidence : ℚ
  deriving DecidableEq, Repr

/-- One item of a recognition `onresult` event:
`event.results[i][0].transcript` and `event.results[i].isFinal`. -/
structure SpeechResult where
  transcript : List Char
  isFinal : Bool
  deriving DecidableEq, Repr

/-- One queued `SpeechSynthesisUtterance` with the fields the code sets. -/
structure Utterance where
  text : List Char
  rate : ℚ
  pitch : ℚ
  volume : ℚ
  deriving DecidableEq, Repr

/-- The fields of the `RobotoApp` object that the voice core reads and
writes.  `deviceSessions` counts currently-open recognition sessions on the
platform device (the external resource `speechRecognition.start()` opens);
it is the observable against which "at most one overlapping session" is
stated.  `restartDelay`/`notifications` record the externally visible
effects (`setTimeout(...)` scheduling a restart, `showNotification`). -/
structure App where
  isSpeaking : Bool
  isMuted : Bool
  isListeningActive : Bool
  ttsEnabled : Bool
  synthAvailable : Bool
  hasRecognition : Bool
  currentEmotion : List Char
  voiceBuffer : List Fragment
  lastSpeechTime : ℕ
  silencePending : Bool
  interimDisplay : Option (List Char)
  avatarSpeaking : Bool
  synthQueue : List Utterance
  notifications : List (List Char)
  deviceSessions : ℕ
  deriving DecidableEq, Repr

/-- `this.voiceActivationSensitivity = 0.7`. -/
def voiceActivationSensitivity : ℚ := 7/10

/-- `getLastConfidence()`: the code always returns the fallback `0.8`. -/
def getLastConfidence : ℚ := 8/10

/-- `processFinalTranscript(transcript)`: record the speech time, clear and
re-arm the silence timer, and push `{text, timestamp, confidence}` onto
`this.voiceBuffer`. -/
def processFinalTranscript (s : App) (transcript : List Char) (now : ℕ) : App :=
  { s with
      lastSpeechTime := now
      silencePending := true
      voiceBuffer := s.voiceBuffer ++ [⟨transcript, now, getLastConfidence⟩] }

/-- `this.voiceBuffer.map(item => item.text).join(' ').trim()`. -/
def combinedText (buf : List Fragment) : List Char :=
  trim (joinSpace (buf.map Fragment.text))

/-- `this.voiceBuffer.reduce((sum, item) => sum + item.confidence, 0) /
this.voiceBuffer.length`. -/
def avgConfidence (buf : List Fragment) : ℚ :=
  (buf.map Fragment.confidence).sum / (buf.length : ℚ)

/-- `processVoiceBuffer()`: no-op on an empty buffer; otherwise join the
buffered texts, average the confidences, clear the buffer, and emit the
combined text via `handleVoiceInput` only when
`avgConfidence >= this.voiceActivationSensitivity && combinedText.length > 2`.
The first component is the emitted utterance, if any. -/
def processVoiceBuffer (s : App) : Option (List Char) × App :=
  if s.voiceBuffer.length = 0 then (none, s)
  else
    let ct := combinedText s.voiceBuffer
    let avg := avgConfidence s.voiceBuffer
    let s' := { s with voiceBuffer := [] }
    if voiceActivationSensitivity ≤ avg ∧ 2 < ct.length then (some ct, s')
    else (none, s')

/-- `handleSpeechResults(event)`: split the event's results into the
concatenated final transcript and the concatenated interim transcript,
display the interim text if non-empty, and feed the trimmed final
transcript to `processFinalTranscript` if non-empty (clearing the interim
display first). -/
def handleSpeechResults (s : App) (results : List SpeechResult) (now : ℕ) : App :=
  let finalTranscript : List Char :=
    (results.filter (·.isFinal)).foldl (fun acc r => acc ++ r.transcript) []
  let interimTranscript : List Char :=
    (results.filter (!·.isFinal)).foldl (fun acc r => acc ++ r.transcript) []
  let s₁ := if interimTranscript ≠ [] then { s with interimDisplay := some interimTranscript } else s
  if trim finalTranscript ≠ [] then
    processFinalTranscript { s₁ with interimDisplay := none } (trim finalTranscript) now
  else s₁

/-! ## Recognition error handling and listening lifecycle -/

/-- `handleSpeechError(event)`: clear `isListeningActive`; on `no-speech`,
`aborted` and any unrecognised error, schedule `startContinuousListening`
after a fixed delay (1000 / 500 / 2000 ms) unless muted, with no
notification; on `audio-capture` and `not-allowed`, show an error
notification, set `isMuted`, and schedule nothing.  The second component is
the delay of the restart this call schedules, if any. -/
def handleSpeechError (s : App) (error : List Char) : App × Option ℕ :=
  let s₁ := { s with isListeningActive := false }
  if error = "no-speech".toList then
    if s₁.isMuted = false then (s₁, some 1000) else (s₁, none)
  else if error = "aborted".toList then
    if s₁.isMuted = false then (s₁, some 500) else (s₁, none)
  else if error = "audio-capture".toList then
    ({ s₁ with
        notifications := s₁.notifications ++
          ["Microphone access denied. Please enable microphone permissions.".toList]
        isMuted := true }, none)
  else if error = "not-allowed".toList then
    ({ s₁ with
        notifications := s₁.notifications ++
          ["Microphone permission denied. Please allow microphone access and try again.".toList]
        isMuted := true }, none)
  else
    if s₁.isMuted = false then (s₁, some 2000) else (s₁, none)

/-- `handleSpeechEnd()`: clear `isListeningActive` and schedule a restart
after 500 ms unless muted. -/
def handleSpeechEnd (s : App) : App × Option ℕ :=
  let s₁ := { s with isListeningActive := false }
  if s₁.isMuted = false then (s₁, some 500) else (s₁, none)

/-- `startContinuousListening()`: return immediately when there is no
recognition object or listening is already active; otherwise call
`speechRecognition.start()` (opening one device session) and set
`isListeningActive`. -/
def startContinuousListening (s : App) : App :=
  if s.hasRecognition = false ∨ s.isListeningActive = true then s
  else { s with deviceSessions := s.deviceSessions + 1, isListeningActive := true }

/-- `stopContinuousListening()`: stop the device and clear the flag when a
recognition object exists and listening is active. -/
def stopContinuousListening (s : App) : App :=
  if s.hasRecognition = true ∧ s.isListeningActive = true then
    { s with deviceSessions := s.deviceSessions - 1, isListeningActive := false }
  else s

/-- `pauseContinuousListening()` behaves like `stopContinuousListening` plus
hiding the listening indicator (not modelled further). -/
def pauseContinuousListening (s : App) : App := stopContinuousListening s

/-- Whether `resumeContinuousListening()` schedules its 500 ms callback:
it returns immediately when muted or already listening. -/
def resumeSchedules (s : App) : Bool := !s.isMuted && !s.isListeningActive

/-- The body of the 500 ms callback `resumeContinuousListening` schedules:
re-check the guard at fire time, then `startContinuousListening`. -/
def resumeFire (s : App) : App :=
  if s.isMuted = false ∧ s.isListeningActive = false then startContinuousListening s else s

/-- `toggleMute()`: flip `isMuted`, then pause or resume listening. The
second component reports whether the resume path scheduled its callback. -/
def toggleMute (s : App) : App × Bool :=
  let s₁ := { s with isMuted := !s.isMuted }
  if s₁.isMuted then (pauseContinuousListening s₁, false)
  else (s₁, resumeSchedules s₁)

/-! ## Speech output -/

/-- Rate/pitch pair of the `voiceConfig` table in `speakText`. -/
structure VoiceCfg where
  rate : ℚ
  pitch : ℚ
  deriving DecidableEq, Repr

/-- The `voiceConfig` lookup table of `speakText`, keyed by
`this.currentEmotion`. -/
def voiceConfig : List (List Char × VoiceCfg) :=
  [("joy".toList, ⟨11/10, 12/10⟩),
   ("sadness".toList, ⟨8/10, 8/10⟩),
   ("anger".toList, ⟨12/10, 9/10⟩),
   ("fear".toList, ⟨13/10, 11/10⟩),
   ("curiosity".toList, ⟨1, 1⟩),
   ("empathy".toList, ⟨9/10, 1⟩),
   ("loneliness".toList, ⟨7/10, 9/10⟩),
   ("hope".toList, ⟨1, 11/10⟩),
   ("melancholy".toList, ⟨8/10, 9/10⟩),
   ("existential".toList, ⟨9/10, 95/100⟩),
   ("contemplation".toList, ⟨85/100, 95/100⟩),
   ("vulnerability".toList, ⟨9/10, 9/10⟩),
   ("awe".toList, ⟨8/10, 11/10⟩),
   ("tenderness".toList, ⟨85/100, 105/100⟩),
   ("yearning".toList, ⟨75/100, 95/100⟩),
   ("serenity".toList, ⟨9/10, 1⟩)]

/-- `speakText(text)`: no-op when TTS is disabled or speech synthesis is
unavailable; otherwise `speechSynthesis.cancel()` (dropping every queued
utterance), set `isSpeaking`, configure rate/pitch from `voiceConfig`
keyed by `this.currentEmotion` (falling back to `{rate: 1.0, pitch: 1.0}`)
and volume `0.8`, and `speechSynthesis.speak(utterance)`. -/
def speakText (s : App) (text : List Char) : App :=
  if s.ttsEnabled = false ∨ s.synthAvailable = false then s
  else
    let config := (voiceConfig.lookup s.currentEmotion).getD ⟨1, 1⟩
    { s with
        isSpeaking := true
        synthQueue := [⟨text, config.rate, config.pitch, 8/10⟩] }

/-- Rate/pitch/volume triple of the `emotionVoiceSettings` table in
`speakTextWithEmotion`. -/
structure EmotionCfg where
  rate : ℚ
  pitch : ℚ
  volume : ℚ
  deriving DecidableEq, Repr

/-- The `emotionVoiceSettings` lookup table of `speakTextWithEmotion`,
keyed by the `emotion` argument. -/
def emotionVoiceSettings : List (List Char × EmotionCfg) :=
  [("joy".toList, ⟨11/10, 12/10, 9/10⟩),
   ("sadness".toList, ⟨8/10, 8/10, 7/10⟩),
   ("anger".toList, ⟨12/10, 9/10, 1⟩),
   ("fear".toList, ⟨11/10, 11/10, 8/10⟩),
   ("curiosity".toList, ⟨1, 1, 8/10⟩),
   ("empathy".toList, ⟨9/10, 9/10, 8/10⟩),
   ("serenity".toList, ⟨8/10, 9/10, 7/10⟩)]

/-- `speakTextWithEmotion(text, emotion)`: no-op when TTS is disabled or
the text is empty; otherwise set `isSpeaking`, configure the utterance from
`emotionVoiceSettings[emotion]` (falling back to
`{rate: 1.0, pitch: 1.0, volume: 0.8}`), add the speaking avatar class, and
`speechSynthesis.speak(utterance)` — without any prior
`speechSynthesis.cancel()`, so the new utterance queues behind whatever is
already playing. -/
def speakTextWithEmotion (s : App) (text : List Char) (emotion : List Char) : App :=
  if s.ttsEnabled = false ∨ text = [] then s
  else
    let settings := (emotionVoiceSettings.lookup emotion).getD ⟨1, 1, 8/10⟩
    { s with
        isSpeaking := true
        avatarSpeaking := true
        synthQueue := s.synthQueue ++ [⟨text, settings.rate, settings.pitch, settings.volume⟩] }

/-- The `utterance.onend` handler installed by `speakText`:
`this.isSpeaking = false` and remove the avatar speaking class. -/
def speakTextOnEnd (s : App) : App :=
  { s with isSpeaking := false, avatarSpeaking := false }

/-- The `utterance.onerror` handler installed by `speakText`: identical
effect to `onend` on the modelled state. -/
def speakTextOnError (s : App) : App :=
  { s with isSpeaking := false, avatarSpeaking := false }

/-- The `utterance.onend` handler installed by `speakTextWithEmotion`. -/
def emotionOnEnd (s : App) : App :=
  { s with isSpeaking := false, avatarSpeaking := false }

/-- The `utterance.onerror` handler installed by `speakTextWithEmotion`. -/
def emotionOnError (s : App) : App :=
  { s with isSpeaking := false, avatarSpeaking := false }

/-! ## The `/api/chat` retry loop (`sendMessage`) -/

/-- What one `fetch('/api/chat', ...)` attempt can come back with:
the abort fired by the 30 s timer (`AbortError`), some other rejection of
the fetch/json promise, or an HTTP response carrying a status and the
parsed body fields `success` and `response`. -/
inductive AttemptOutcome where
  | timeout
  | networkFailure
  | http (status : ℕ) (success : Bool) (response : List Char)
  deriving DecidableEq, Repr

/-- The error a failed attempt is caught with, mirroring the thrown
`Error`s: `AbortError`, `` `HTTP ${status}: ...` `` for `!response.ok`,
`data.response || 'Invalid response from server'` for a well-status but
ill-formed body, and any other fetch failure. -/
inductive SendError where
  | abortError
  | httpStatusError (status : ℕ)
  | invalidResponse (message : List Char)
  | networkError
  deriving DecidableEq, Repr

/-- `response.ok`: status in the range 200–299. -/
def responseOk (status : ℕ) : Bool := 200 ≤ status && status ≤ 299

/-- One iteration's try-block: `!response.ok` throws `HTTP <status>`;
a parsed body with `data.success && data.response` (a non-empty response
string) succeeds; anything else throws
`data.response || 'Invalid response from server'`. -/
def processAttempt : AttemptOutcome → Except SendError (List Char)
  | .timeout => .error .abortError
  | .networkFailure => .error .networkError
  | .http status success response =>
    if responseOk status = false then .error (.httpStatusError status)
    else if success = true ∧ response ≠ [] then .ok response
    else .error (.invalidResponse
      (if response ≠ [] then response else "Invalid response from server".toList))

/-- `error.message.includes('HTTP 5')`: for a status error the message is
`` `HTTP ${status}: ${statusText}` ``, which contains `HTTP 5` exactly when
the decimal status starts with the digit 5; for an invalid-response error
the message is the body's `response` text itself. -/
def errorLooksLikeHttp5 : SendError → Bool
  | .abortError => false
  | .httpStatusError status => (Nat.toDigits 10 status).head? = some '5'
  | .invalidResponse message => decide ("HTTP 5".toList <:+: message)
  | .networkError => false

/-- The single user-facing chat message added after the final failed
attempt, chosen by the last error caught. -/
def surfaceMessage (e : SendError) : List Char :=
  match e with
  | .abortError => "Request timed out. Please try again.".toList
  | _ =>
    if errorLooksLikeHttp5 e then
      "Server is experiencing issues. Please try again in a moment.".toList
    else
      "Connection problem. Please check your internet and try again.".toList

/-- Result of `sendMessage`: the success reply rendered (and spoken), or
the one error message surfaced after the retries are exhausted.
(`noResult` is the value of falling out of the `while` loop; it is
unreachable from `retryCount = 0`.) -/
inductive SendResult where
  | ok (response : List Char)
  | failed (userMessage : List Char)
  | noResult
  deriving DecidableEq, Repr

/-- `maxRetries = 3` in `sendMessage`. -/
def maxRetries : ℕ := 3

/-- The per-attempt abort timer: `setTimeout(() => controller.abort(), 30000)`. -/
def attemptTimeoutMs : ℕ := 30000

/-- The `while (retryCount < maxRetries)` loop of `sendMessage`, starting
at `retryCount` with `fuel = maxRetries - retryCount` iterations left.
`outcomes n` is what the `(n+1)`-th fetch comes back with.  Returns the
result, the number of attempts made, and the backoff delays
(`1000 * retryCount` ms) awaited between attempts. -/
def sendLoop (outcomes : ℕ → AttemptOutcome) :
    ℕ → ℕ → SendResult × ℕ × List ℕ
  | _, 0 => (.noResult, 0, [])
  | retryCount, fuel + 1 =>
    match processAttempt (outcomes retryCount) with
    | .ok response => (.ok response, 1, [])
    | .error e =>
      if retryCount + 1 ≥ maxRetries then (.failed (surfaceMessage e), 1, [])
      else
        let rest := sendLoop outcomes (retryCount + 1) fuel
        (rest.1, rest.2.1 + 1, 1000 * (retryCount + 1) :: rest.2.2)

/-- `sendMessage` on a non-empty typed message: run the retry loop from
`retryCount = 0`. -/
def sendMessage (outcomes : ℕ → AttemptOutcome) : SendResult × ℕ × List ℕ :=
  sendLoop outcomes 0 maxRetries

/-! ## Support definitions used by the statements -/

/-- A non-empty character list whose first character is not whitespace. -/
def headNotWS : List Char → Bool
  | [] => false
  | c :: _ => !isWS c

/-- Feed a sequence of final transcripts — all arriving within the 1.5 s
silence window, so no flush intervenes — through `processFinalTranscript`
in arrival order. -/
def pushTranscripts (s : App) : List (List Char) → App
  | [] => s
  | t :: ts => pushTranscripts (processFinalTranscript s t 0) ts

/-- The `RobotoApp` state right after the constructor and `init()` run with
speech APIs available, an unmuted user and TTS on: `isSpeaking = false`,
`currentEmotion = 'curious'`, empty voice buffer, nothing queued. -/
def initApp : App where
  isSpeaking := false
  isMuted := false
  isListeningActive := false
  ttsEnabled := true
  synthAvailable := true
  hasRecognition := true
  currentEmotion := "curious".toList
  voiceBuffer := []
  lastSpeechTime := 0
  silencePending := false
  interimDisplay := none
  avatarSpeaking := false
  synthQueue := []
  notifications := []
  deviceSessions := 0

/-- The calls that can try to open a recognition session:
`startContinuousListening()` and the fired 500 ms callback of
`resumeContinuousListening()`. -/
inductive ListenOp where
  | start
  | resumeCallback
  deriving DecidableEq, Repr

/-- Apply one listening-lifecycle call. -/
def applyListenOp (s : App) : ListenOp → App
  | .start => startContinuousListening s
  | .resumeCallback => resumeFire s

/-- Apply a sequence of listening-lifecycle calls in order. -/
def applyListenOps (s : App) (ops : List ListenOp) : App :=
  ops.foldl applyListenOp s

/-- The listening-session invariant: at most one device session is open,
and an open session is always tracked by `isListeningActive`. -/
def listenInv (s : App) : Prop :=
  s.deviceSessions ≤ 1 ∧ (s.deviceSessions = 1 → s.isListeningActive = true)

/-- A backend that always answers HTTP 200 with `success: false` and a
plain refusal text in `response`. -/
def alwaysMalformed200 : ℕ → AttemptOutcome :=
  fun _ => .http 200 false "nope".toList

/-- Spec scenario: the backend answers HTTP 500 on the first two attempts
and HTTP 200 with `{success: true, response: "Done"}` on the third. -/
def twoFailuresThenDone : ℕ → AttemptOutcome :=
  fun n => if n < 2 then .http 500 false [] else .http 200 true "Done".toList

/-! ## Helper lemmas -/

lemma headNotWS_ne_nil {l : List Char} (h : headNotWS l = true) : l ≠ [] := by
  cases l <;> simp [headNotWS] at h ⊢

lemma dropWhile_eq_self_of_headNotWS {l : List Char} (h : headNotWS l = true) :
    l.dropWhile isWS = l := by
  cases l with
  | nil => rfl
  | cons c t =>
    simp only [headNotWS, Bool.not_eq_true'] at h
    simp [List.dropWhile_cons, h]

lemma headNotWS_append {l l' : List Char} (h : headNotWS l = true) :
    headNotWS (l ++ l') = true := by
  cases l with
  | nil => simp [headNotWS] at h
  | cons c t => simpa [headNotWS] using h

lemma joinSpace_cons_cons (t t' : List Char) (rest : List (List Char)) :
    joinSpace (t :: t' :: rest) = t ++ ' ' :: joinSpace (t' :: rest) := rfl

lemma headNotWS_joinSpace {ts : List (List Char)} (hne : ts ≠ [])
    (h : ∀ t ∈ ts, headNotWS t = true) : headNotWS (joinSpace ts) = true := by
  match ts with
  | [t] => simpa [joinSpace] using h t (by simp)
  | t :: t' :: rest =>
    rw [joinSpace_cons_cons]
    exact headNotWS_append (h t (by simp))

lemma headNotWS_reverse_joinSpace {ts : List (List Char)} (hne : ts ≠ [])
    (h : ∀ t ∈ ts, headNotWS t.reverse = true) :
    headNotWS (joinSpace ts).reverse = true := by
  induction ts with
  | nil => exact absurd rfl hne
  | cons t rest ih =>
    cases rest with
    | nil => simpa [joinSpace] using h t (by simp)
    | cons t' rest' =>
      rw [joinSpace_cons_cons, List.reverse_append, List.reverse_cons]
      exact headNotWS_append (headNotWS_append
        (ih (by simp) (fun u hu => h u (by simp [hu]))))

lemma trim_eq_self {l : List Char} (h1 : headNotWS l = true)
    (h2 : headNotWS l.reverse = true) : trim l = l := by
  unfold trim
  rw [dropWhile_eq_self_of_headNotWS h1, dropWhile_eq_self_of_headNotWS h2,
    List.reverse_reverse]

lemma trim_joinSpace {ts : List (List Char)} (hne : ts ≠ [])
    (h : ∀ t ∈ ts, headNotWS t = true ∧ headNotWS t.reverse = true) :
    trim (joinSpace ts) = joinSpace ts :=
  trim_eq_self (headNotWS_joinSpace hne fun t ht => (h t ht).1)
    (headNotWS_reverse_joinSpace hne fun t ht => (h t ht).2)

lemma pushTranscripts_voiceBuffer (s : App) (ts : List (List Char)) :
    (pushTranscripts s ts).voiceBuffer
      = s.voiceBuffer ++ ts.map (fun t => ⟨t, 0, getLastConfidence⟩) := by
  induction ts generalizing s with
  | nil => simp [pushTranscripts]
  | cons t ts ih =>
    simp [pushTranscripts, processFinalTranscript, ih]

lemma map_confidence_pushed (ts : List (List Char)) :
    (ts.map (fun t => (⟨t, 0, getLastConfidence⟩ : Fragment))).map Fragment.confidence
      = List.replicate ts.length getLastConfidence := by
  induction ts with
  | nil => rfl
  | cons t ts ih => simp [List.replicate, ih]

lemma avgConfidence_of_const {buf : List Fragment} {q : ℚ}
    (h : buf.map Fragment.confidence = List.replicate buf.length q)
    (hne : buf ≠ []) : avgConfidence buf = q := by
  unfold avgConfidence
  have hn : (buf.length : ℚ) ≠ 0 := by
    exact_mod_cast List.length_pos.mpr hne |>.ne'
  rw [h, List.sum_replicate, nsmul_eq_mul, mul_div_cancel_left₀ _ hn]

lemma avgConfidence_of_constAll {buf : List Fragment} {q : ℚ}
    (h : ∀ f ∈ buf, f.confidence = q) (hne : buf ≠ []) : avgConfidence buf = q := by
  unfold avgConfidence
  have hmap : buf.map Fragment.confidence = List.replicate buf.length q := by
    refine List.eq_replicate_iff.mpr ⟨by simp, ?_⟩
    intro b hb
    obtain ⟨f, hf, rfl⟩ := List.mem_map.mp hb
    exact h f hf
  have hn : (buf.length : ℚ) ≠ 0 := by
    exact_mod_cast (List.length_pos.mpr hne).ne'
  rw [hmap, List.sum_replicate, nsmul_eq_mul, mul_div_cancel_left₀ _ hn]

lemma processVoiceBuffer_emits_iff (s : App) (hne : s.voiceBuffer ≠ []) :
    (processVoiceBuffer s).1 ≠ none ↔
      (voiceActivationSensitivity ≤ avgConfidence s.voiceBuffer ∧
        2 < (combinedText s.voiceBuffer).length) := by
  simp only [processVoiceBuffer]
  rw [if_neg (by simpa using (List.length_pos.mpr hne).ne')]
  split
  · next h => simpa using h
  · next h => simpa using h

lemma sendLoop_succ (o : ℕ → AttemptOutcome) (rc fuel : ℕ) :
    sendLoop o rc (fuel + 1) =
      match processAttempt (o rc) with
      | .ok response => (.ok response, 1, [])
      | .error e =>
        if rc + 1 ≥ maxRetries then (.failed (surfaceMessage e), 1, [])
        else
          ((sendLoop o (rc + 1) fuel).1, (sendLoop o (rc + 1) fuel).2.1 + 1,
            1000 * (rc + 1) :: (sendLoop o (rc + 1) fuel).2.2) := rfl

lemma processVoiceBuffer_empty {u : App} (hu : u.voiceBuffer = []) :
    processVoiceBuffer u = (none, u) := by
  simp only [processVoiceBuffer]
  rw [if_pos (by simp [hu])]

lemma processVoiceBuffer_clears (s : App) :
    (processVoiceBuffer s).2.voiceBuffer = [] := by
  unfold processVoiceBuffer
  split
  · next h => exact List.length_eq_zero.mp h
  · simp only []
    split <;> rfl

/-! ## Claim theorems -/

/-- C1 (counterexample): the claim fails as stated.  The single final
fragment `"hi"` — a well-formed, non-empty, trimmed transcript arriving
within the silence window — is flushed without emitting any final
utterance, because the combined text `"hi"` has length 2 and
`processVoiceBuffer` requires `combinedText.length > 2`.  So the batcher
does not emit one utterance for *every* fragment sequence. -/
theorem flush_hi_emits_nothing :
    (processVoiceBuffer (pushTranscripts initApp ["hi".toList])).1 = none
    ∧ joinSpace ["hi".toList] = "hi".toList
    ∧ "hi".toList ≠ [] := by
  refine ⟨?_, by decide, by decide⟩
  simp only [processVoiceBuffer]
  rw [if_neg (by decide), if_neg (fun h => absurd h.2 (by decide))]

/-- C1 (amended): for every sequence of final fragments arriving within
the silence window whose space-joined text is longer than 2 characters,
the flush emits exactly one final utterance whose text is the space-joined
concatenation of the fragment texts in arrival order, and the buffer is
cleared.  (The stored confidence is always 0.8, so the 0.7 threshold never
blocks emission; transcripts are non-empty and trimmed because
`handleSpeechResults` only forwards `finalTranscript.trim()` when it is
non-empty.) -/
theorem batcher_emits_joined_utterance (s : App) (ts : List (List Char))
    (hbuf : s.voiceBuffer = [])
    (htrim : ∀ t ∈ ts, headNotWS t = true ∧ headNotWS t.reverse = true)
    (hlen : 2 < (joinSpace ts).length) :
    processVoiceBuffer (pushTranscripts s ts)
      = (some (joinSpace ts), { pushTranscripts s ts with voiceBuffer := [] }) := by
  have hts : ts ≠ [] := by
    intro h
    rw [h] at hlen
    simp [joinSpace] at hlen
  have hb : (pushTranscripts s ts).voiceBuffer
      = ts.map (fun t => ⟨t, 0, getLastConfidence⟩) := by
    rw [pushTranscripts_voiceBuffer, hbuf, List.nil_append]
  have hcomp : (Fragment.text ∘ fun t => (⟨t, 0, getLastConfidence⟩ : Fragment)) = id := rfl
  have hct : combinedText (pushTranscripts s ts).voiceBuffer = joinSpace ts := by
    rw [combinedText, hb, List.map_map, hcomp, List.map_id]
    exact trim_joinSpace hts htrim
  have hne : (pushTranscripts s ts).voiceBuffer ≠ [] := by
    rw [hb]
    simpa using hts
  have havg : avgConfidence (pushTranscripts s ts).voiceBuffer = getLastConfidence := by
    refine avgConfidence_of_constAll ?_ hne
    intro f hf
    rw [hb] at hf
    obtain ⟨t, _, rfl⟩ := List.mem_map.mp hf
    rfl
  simp only [processVoiceBuffer]
  rw [if_neg (by simpa using (List.length_pos.mpr hne).ne'), if_pos]
  · rw [hct]
  · refine ⟨?_, ?_⟩
    · rw [havg]
      norm_num [voiceActivationSensitivity, getLastConfidence]
    · rw [hct]
      exact hlen

/-- C1 (witness): the spec's end-to-end scenario 1 — `"turn on the
lights"` then `"please"` within the window — emits the single utterance
`"turn on the lights please"`. -/
theorem batcher_emits_joined_utterance_witness :
    processVoiceBuffer (pushTranscripts initApp
        ["turn on the lights".toList, "please".toList])
      = (some "turn on the lights please".toList,
         { pushTranscripts initApp ["turn on the lights".toList, "please".toList] with
             voiceBuffer := [] }) := by
  have h := batcher_emits_joined_utterance initApp
    ["turn on the lights".toList, "please".toList] rfl (by decide) (by decide)
  rw [h]
  have hjoin : joinSpace ["turn on the lights".toList, "please".toList]
      = "turn on the lights please".toList := by decide
  rw [hjoin]

/-- C6: a flush emits nothing when the combined text has length ≤ 2 or the
mean confidence is below `voiceActivationSensitivity`; at the boundary, a
mean confidence exactly equal to the threshold (together with sufficient
length) is accepted and the combined text is emitted. -/
theorem flush_threshold_boundary (s : App) :
    ((combinedText s.voiceBuffer).length ≤ 2 ∨
        avgConfidence s.voiceBuffer < voiceActivationSensitivity →
      (processVoiceBuffer s).1 = none)
    ∧ (avgConfidence s.voiceBuffer = voiceActivationSensitivity ∧
        2 < (combinedText s.voiceBuffer).length →
      (processVoiceBuffer s).1 = some (combinedText s.voiceBuffer)) := by
  constructor
  · intro h
    simp only [processVoiceBuffer]
    split
    · rfl
    · split
      · next hc =>
        rcases h with h | h
        · omega
        · exact absurd hc.1 (not_le.mpr h)
      · rfl
  · rintro ⟨havg, hlen⟩
    have hne : s.voiceBuffer ≠ [] := by
      intro hnil
      rw [hnil] at havg
      norm_num [avgConfidence, voiceActivationSensitivity] at havg
    simp only [processVoiceBuffer]
    rw [if_neg (by simpa using (List.length_pos.mpr hne).ne'),
      if_pos ⟨le_of_eq havg.symm, hlen⟩]

/-- C6 (witness): a buffer whose single fragment has confidence exactly
0.7 — the threshold itself — and a 3-character text is accepted. -/
theorem flush_threshold_boundary_witness :
    (processVoiceBuffer { initApp with
        voiceBuffer := [⟨"yes".toList, 0, 7/10⟩] }).1 = some "yes".toList := by
  have havg : avgConfidence [(⟨"yes".toList, 0, 7/10⟩ : Fragment)]
      = voiceActivationSensitivity := by
    norm_num [avgConfidence, voiceActivationSensitivity]
  have h := (flush_threshold_boundary
    { initApp with voiceBuffer := [⟨"yes".toList, 0, 7/10⟩] }).2 ⟨havg, by decide⟩
  rw [h]
  decide

/-- C8: flushing with zero buffered fragments emits nothing and changes
nothing, and because every flush leaves the buffer empty, the flush right
after any flush emits nothing and is a no-op — two consecutive flushes
never emit twice. -/
theorem flush_empty_noop_and_idempotent (s : App) :
    (s.voiceBuffer = [] → processVoiceBuffer s = (none, s))
    ∧ processVoiceBuffer (processVoiceBuffer s).2 = (none, (processVoiceBuffer s).2) := by
  exact ⟨fun h => processVoiceBuffer_empty h,
    processVoiceBuffer_empty (processVoiceBuffer_clears s)⟩

/-- C8 (witness): flushing the freshly initialised state (empty buffer)
emits nothing and returns the state unchanged. -/
theorem flush_empty_noop_witness :
    processVoiceBuffer initApp = (none, initApp) :=
  (flush_empty_noop_and_idempotent initApp).1 rfl

/-- C9: every fragment the pipeline buffers carries the constant
confidence `getLastConfidence = 0.8` (whatever the device reported never
enters the buffer), so the mean confidence of any non-empty flushed buffer
is 0.8, the 0.7 threshold is always met, and emission depends only on the
combined text being longer than 2 characters. -/
theorem buffered_confidence_constant (s : App) (ts : List (List Char))
    (hbuf : s.voiceBuffer = []) :
    ((pushTranscripts s ts).voiceBuffer.map Fragment.confidence
        = List.replicate ts.length (8/10 : ℚ))
    ∧ (ts ≠ [] →
        avgConfidence (pushTranscripts s ts).voiceBuffer = 8/10
        ∧ voiceActivationSensitivity ≤ avgConfidence (pushTranscripts s ts).voiceBuffer)
    ∧ ((processVoiceBuffer (pushTranscripts s ts)).1 ≠ none ↔
        2 < (combinedText (pushTranscripts s ts).voiceBuffer).length) := by
  have hb : (pushTranscripts s ts).voiceBuffer
      = ts.map (fun t => ⟨t, 0, getLastConfidence⟩) := by
    rw [pushTranscripts_voiceBuffer, hbuf, List.nil_append]
  have hconst : ∀ f ∈ (pushTranscripts s ts).voiceBuffer, f.confidence = (8/10 : ℚ) := by
    intro f hf
    rw [hb] at hf
    obtain ⟨t, _, rfl⟩ := List.mem_map.mp hf
    rfl
  have havg : ts ≠ [] →
      avgConfidence (pushTranscripts s ts).voiceBuffer = 8/10 := by
    intro hts
    exact avgConfidence_of_constAll hconst (by rw [hb]; simpa using hts)
  refine ⟨?_, fun hts => ⟨havg hts, ?_⟩, ?_⟩
  · rw [hb, map_confidence_pushed]
    rfl
  · rw [havg hts]
    norm_num [voiceActivationSensitivity]
  · cases ts with
    | nil =>
      simp only [pushTranscripts]
      rw [processVoiceBuffer_empty hbuf, hbuf]
      simp [combinedText, joinSpace, trim]
    | cons t ts' =>
      have hne : (pushTranscripts s (t :: ts')).voiceBuffer ≠ [] := by
        rw [hb]
        simp
      rw [processVoiceBuffer_emits_iff _ hne]
      constructor
      · exact fun h => h.2
      · intro h
        refine ⟨?_, h⟩
        rw [havg (by simp)]
        norm_num [voiceActivationSensitivity]

/-- C9 (witness): pushing the single transcript `"okay"` yields a buffer
of confidence exactly 0.8 whose flush emits (length 4 > 2). -/
theorem buffered_confidence_constant_witness :
    avgConfidence (pushTranscripts initApp ["okay".toList]).voiceBuffer = 8/10
    ∧ ((processVoiceBuffer (pushTranscripts initApp ["okay".toList])).1 ≠ none ↔
        2 < (combinedText (pushTranscripts initApp ["okay".toList]).voiceBuffer).length) := by
  have h := buffered_confidence_constant initApp ["okay".toList] rfl
  exact ⟨(h.2.1 (by decide)).1, h.2.2⟩

/-- C3 (counterexample): the claim fails as stated.  From the reachable
state in which the assistant is speaking (`isSpeaking = true`, reached by
`speakText`/`speakTextWithEmotion` while recognition keeps running — the
code's own comment says "Speech recognition continues running"), a final
fragment event is still delivered: `handleSpeechResults` appends it to the
voice buffer instead of suppressing it. -/
theorem fragment_delivered_while_speaking :
    ({ initApp with isSpeaking := true } : App).isSpeaking = true
    ∧ ({ initApp with isSpeaking := true } : App).voiceBuffer = []
    ∧ ((handleSpeechResults { initApp with isSpeaking := true }
        [⟨"hello".toList, true⟩] 5).voiceBuffer).length = 1 := by
  refine ⟨rfl, rfl, ?_⟩
  decide

/-- C3 (amended): `handleSpeechResults` performs no `Speaking`/`Muted`
suppression at all — the fragments it buffers and the interim transcript it
displays are identical whatever the `isSpeaking` and `isMuted` flags are.
(While muted the device is merely stopped by `pauseContinuousListening`,
so no events are produced; events that do arrive are never gated on either
flag.) -/
theorem handleSpeechResults_ignores_speaking_and_muted (s : App)
    (rs : List SpeechResult) (now : ℕ) (b m : Bool) :
    handleSpeechResults { s with isSpeaking := b, isMuted := m } rs now
      = { handleSpeechResults s rs now with isSpeaking := b, isMuted := m } := by
  simp only [handleSpeechResults, processFinalTranscript]
  split
  · split <;> rfl
  · split <;> rfl

/-- C4: for every recognition-device error while not muted, the
recoverable errors (`no-speech`, `aborted`, anything unrecognised) schedule
an automatic restart after a fixed delay (1000, 500 or 2000 ms) with no
user-visible notification and without muting, while the terminal errors
(`audio-capture`, `not-allowed`) schedule no restart, set `isMuted`, and
surface exactly one user-facing error notification. -/
theorem speech_error_restart_policy (s : App) (e : List Char)
    (h : s.isMuted = false) :
    (e ≠ "audio-capture".toList → e ≠ "not-allowed".toList →
      ((handleSpeechError s e).2 = some 1000 ∨ (handleSpeechError s e).2 = some 500
        ∨ (handleSpeechError s e).2 = some 2000)
      ∧ (handleSpeechError s e).1.notifications = s.notifications
      ∧ (handleSpeechError s e).1.isMuted = false)
    ∧ (e = "audio-capture".toList ∨ e = "not-allowed".toList →
      (handleSpeechError s e).2 = none
      ∧ (handleSpeechError s e).1.isMuted = true
      ∧ (handleSpeechError s e).1.notifications.length
          = s.notifications.length + 1) := by
  constructor
  · intro hna hnb
    simp only [handleSpeechError]
    split_ifs with h1 h2
    all_goals simp_all
  · rintro (rfl | rfl)
    · simp only [handleSpeechError]
      rw [if_neg (by decide), if_neg (by decide)]
      simp [h]
    · simp only [handleSpeechError]
      rw [if_neg (by decide), if_neg (by decide), if_neg (by decide)]
      simp [h]

/-- C4 (witness): the spec's end-to-end scenario 3 — a `no-speech` error
while not muted — schedules a silent automatic restart (1000 ms here), adds
no notification and does not mute. -/
theorem speech_error_restart_policy_witness :
    ((handleSpeechError initApp "no-speech".toList).2 = some 1000
      ∨ (handleSpeechError initApp "no-speech".toList).2 = some 500
      ∨ (handleSpeechError initApp "no-speech".toList).2 = some 2000)
    ∧ (handleSpeechError initApp "no-speech".toList).1.notifications
        = initApp.notifications
    ∧ (handleSpeechError initApp "no-speech".toList).1.isMuted = false :=
  (speech_error_restart_policy initApp "no-speech".toList rfl).1
    (by decide) (by decide)

/-- C5: for every speak invocation that starts playback (TTS enabled, and
for `speakTextWithEmotion` a non-empty text; for `speakText` an available
synthesis device), `isSpeaking` is set, and both terminal callbacks the
code installs — `onend` for normal completion and `onerror` for playback
failure, of which the platform fires exactly one per started utterance —
reset `isSpeaking` to `false`, so the session can never be left permanently
suppressed. -/
theorem speaking_flag_always_reset (s : App) (text emotion : List Char)
    (hts : s.ttsEnabled = true) :
    (text ≠ [] →
      (speakTextWithEmotion s text emotion).isSpeaking = true
      ∧ (emotionOnEnd (speakTextWithEmotion s text emotion)).isSpeaking = false
      ∧ (emotionOnError (speakTextWithEmotion s text emotion)).isSpeaking = false)
    ∧ (s.synthAvailable = true →
      (speakText s text).isSpeaking = true
      ∧ (speakTextOnEnd (speakText s text)).isSpeaking = false
      ∧ (speakTextOnError (speakText s text)).isSpeaking = false) := by
  constructor
  · intro htext
    rw [speakTextWithEmotion, if_neg (by simp [hts, htext])]
    exact ⟨rfl, rfl, rfl⟩
  · intro hsyn
    rw [speakText, if_neg (by simp [hts, hsyn])]
    exact ⟨rfl, rfl, rfl⟩

/-- C5 (witness): a started emotional utterance resets `isSpeaking` via
either terminal callback. -/
theorem speaking_flag_always_reset_witness :
    (speakTextWithEmotion initApp "hello".toList "joy".toList).isSpeaking = true
    ∧ (emotionOnEnd (speakTextWithEmotion initApp "hello".toList "joy".toList)).isSpeaking
        = false
    ∧ (emotionOnError (speakTextWithEmotion initApp "hello".toList "joy".toList)).isSpeaking
        = false :=
  (speaking_flag_always_reset initApp "hello".toList "joy".toList rfl).1 (by decide)

/-- C7 (counterexample): the claim fails as stated.  With TTS enabled and
an utterance already in flight, `speakTextWithEmotion` — the speak path
used for every voice-conversation reply — does not cancel it: the new
utterance is queued behind it (queue grows from 1 to 2), so "any in-flight
utterance is cancelled before the new one starts" does not hold for every
speak invocation.  Only `speakText` calls `speechSynthesis.cancel()`. -/
theorem speakTextWithEmotion_does_not_cancel :
    ({ initApp with synthQueue := [⟨"previous".toList, 1, 1, 8/10⟩] } : App).ttsEnabled
        = true
    ∧ ({ initApp with
          synthQueue := [⟨"previous".toList, 1, 1, 8/10⟩] } : App).synthQueue.length = 1
    ∧ ((speakTextWithEmotion
          { initApp with synthQueue := [⟨"previous".toList, 1, 1, 8/10⟩] }
          "hello there".toList "joy".toList).synthQueue).length = 2 := by
  refine ⟨rfl, rfl, ?_⟩
  rw [speakTextWithEmotion, if_neg (by decide)]
  simp

/-- C7 (amended): `speakText` cancels any in-flight utterance before the
new one starts (afterwards exactly the new utterance is queued — last call
wins), taking rate and pitch from the fixed `voiceConfig` table keyed by
`currentEmotion` (neutral `rate 1.0 / pitch 1.0` when the tag is unknown)
and the fixed volume `0.8`; `speakTextWithEmotion`, however, cancels
nothing — it appends its utterance behind the existing queue — while
taking rate, pitch and volume from the fixed `emotionVoiceSettings` table
keyed by the emotion tag (defaults `1.0 / 1.0 / 0.8` when absent or
unknown). -/
theorem speak_queue_and_emotion_tables (s : App) (text emotion : List Char) :
    (s.ttsEnabled = true → s.synthAvailable = true →
      (∀ cfg, voiceConfig.lookup s.currentEmotion = some cfg →
        (speakText s text).synthQueue = [⟨text, cfg.rate, cfg.pitch, 8/10⟩])
      ∧ (voiceConfig.lookup s.currentEmotion = none →
        (speakText s text).synthQueue = [⟨text, 1, 1, 8/10⟩]))
    ∧ (s.ttsEnabled = true → text ≠ [] →
      (∀ cfg, emotionVoiceSettings.lookup emotion = some cfg →
        (speakTextWithEmotion s text emotion).synthQueue
          = s.synthQueue ++ [⟨text, cfg.rate, cfg.pitch, cfg.volume⟩])
      ∧ (emotionVoiceSettings.lookup emotion = none →
        (speakTextWithEmotion s text emotion).synthQueue
          = s.synthQueue ++ [⟨text, 1, 1, 8/10⟩])) := by
  constructor
  · intro hts hsyn
    rw [speakText, if_neg (by simp [hts, hsyn])]
    constructor
    · intro cfg hcfg
      simp [hcfg]
    · intro hnone
      simp [hnone]
  · intro hts htext
    rw [speakTextWithEmotion, if_neg (by simp [hts, htext])]
    constructor
    · intro cfg hcfg
      simp [hcfg]
    · intro hnone
      simp [hnone]

/-- C7 (witness): with the unknown tag `"confused"` the emotional speak
path queues behind the in-flight utterance with the neutral defaults, and
`speakText` from the `'curious'` start state (a tag absent from
`voiceConfig`, whose keys include `'curiosity'` but not `'curious'`)
cancels down to exactly one utterance with the neutral fallback. -/
theorem speak_queue_and_emotion_tables_witness :
    (speakTextWithEmotion { initApp with synthQueue := [⟨"old".toList, 1, 1, 8/10⟩] }
        "fine".toList "confused".toList).synthQueue
      = [⟨"old".toList, 1, 1, 8/10⟩] ++ [⟨"fine".toList, 1, 1, 8/10⟩]
    ∧ (speakText { initApp with synthQueue := [⟨"old".toList, 1, 1, 8/10⟩] }
        "fine".toList).synthQueue
      = [⟨"fine".toList, 1, 1, 8/10⟩] := by
  constructor
  · exact ((speak_queue_and_emotion_tables
      { initApp with synthQueue := [⟨"old".toList, 1, 1, 8/10⟩] }
      "fine".toList "confused".toList).2 rfl (by decide)).2 (by decide)
  · exact ((speak_queue_and_emotion_tables
      { initApp with synthQueue := [⟨"old".toList, 1, 1, 8/10⟩] }
      "fine".toList "confused".toList).1 rfl rfl).2 (by decide)

/-- C10: `startContinuousListening` is a no-op when listening is already
active or no recognition capability exists, and the resume path is a no-op
when muted or already listening (both at schedule time and when its 500 ms
callback fires); consequently, from any state with at most one open device
session (tracked by `isListeningActive`), no sequence of start/resume calls
ever opens a second overlapping session. -/
theorem at_most_one_recognition_session (s : App) (ops : List ListenOp)
    (h : listenInv s) :
    (applyListenOps s ops).deviceSessions ≤ 1
    ∧ (s.isListeningActive = true ∨ s.hasRecognition = false →
        startContinuousListening s = s)
    ∧ (s.isMuted = true ∨ s.isListeningActive = true →
        resumeFire s = s ∧ resumeSchedules s = false) := by
  have step : ∀ (u : App) (op : ListenOp), listenInv u → listenInv (applyListenOp u op) := by
    intro u op hu
    obtain ⟨hle, himp⟩ := hu
    have hstart : listenInv (startContinuousListening u) := by
      rw [startContinuousListening]
      split
      · exact ⟨hle, himp⟩
      · next hc =>
        push_neg at hc
        have hne : u.deviceSessions ≠ 1 := fun h1 => hc.2 (himp h1)
        constructor
        · show u.deviceSessions + 1 ≤ 1
          omega
        · intro _
          rfl
    cases op with
    | start => exact hstart
    | resumeCallback =>
      show listenInv (resumeFire u)
      rw [resumeFire]
      split
      · exact hstart
      · exact ⟨hle, himp⟩
  refine ⟨?_, ?_, ?_⟩
  · have : listenInv (applyListenOps s ops) := by
      rw [applyListenOps]
      induction ops generalizing s with
      | nil => exact h
      | cons op rest ih => exact ih _ (step s op h)
    exact this.1
  · intro hcase
    rw [startContinuousListening, if_pos (by tauto)]
  · intro hcase
    constructor
    · rw [resumeFire, if_neg (by rcases hcase with hc | hc <;> simp [hc])]
    · rw [resumeSchedules]
      rcases hcase with hc | hc <;> simp [hc]

/-- C10 (witness): from the fresh state (no open session), the sequence
start–start–resume leaves at most one session open, and a second `start`
while active is a no-op. -/
theorem at_most_one_recognition_session_witness :
    (applyListenOps initApp [.start, .start, .resumeCallback]).deviceSessions ≤ 1
    ∧ startContinuousListening
        { initApp with isListeningActive := true, deviceSessions := 1 }
      = { initApp with isListeningActive := true, deviceSessions := 1 } := by
  constructor
  · exact (at_most_one_recognition_session initApp [.start, .start, .resumeCallback]
      ⟨by decide, by decide⟩).1
  · exact (at_most_one_recognition_session
      { initApp with isListeningActive := true, deviceSessions := 1 } []
      ⟨by decide, by decide⟩).2.1 (Or.inl rfl)

/-- C2 (counterexample): the claim fails as stated.  Against a backend
that always answers HTTP 200 (a success status, not a timeout) with a
malformed body (`success: false`), the client still retries: it makes all
3 attempts, and the message it finally surfaces is the generic connection
message, not a timeout or server-error message.  So the client does not
retry *only* on non-success HTTP status or timeout. -/
theorem retries_on_malformed_2xx :
    (sendMessage alwaysMalformed200).2.1 = 3
    ∧ (sendMessage alwaysMalformed200).1
        = .failed "Connection problem. Please check your internet and try again.".toList
    ∧ responseOk 200 = true
    ∧ alwaysMalformed200 0 ≠ .timeout := by decide

/-- C2 (amended): `sendMessage` returns success immediately on the first
attempt whose response is a 2xx with well-formed body (success flag set
and non-empty response text), making exactly that one attempt with no
backoff; it retries on *any* failed attempt — non-2xx status, timeout,
network error, or 2xx with malformed body — up to exactly
`maxRetries = 3` attempts total with a 30-second timeout per attempt
(`attemptTimeoutMs`) and linearly increasing backoff (1000 ms then
2000 ms); only after exhausting all attempts does it surface a single
message chosen by the last error (timeout / server error / generic
connection problem). -/
theorem sendMessage_bounded_retry (outcomes : ℕ → AttemptOutcome) :
    maxRetries = 3 ∧ attemptTimeoutMs = 30000
    ∧ (∀ r, processAttempt (outcomes 0) = .ok r →
        sendMessage outcomes = (.ok r, 1, []))
    ∧ (∀ e0 r, processAttempt (outcomes 0) = .error e0 →
        processAttempt (outcomes 1) = .ok r →
        sendMessage outcomes = (.ok r, 2, [1000]))
    ∧ (∀ e0 e1 r, processAttempt (outcomes 0) = .error e0 →
        processAttempt (outcomes 1) = .error e1 →
        processAttempt (outcomes 2) = .ok r →
        sendMessage outcomes = (.ok r, 3, [1000, 2000]))
    ∧ (∀ e0 e1 e2, processAttempt (outcomes 0) = .error e0 →
        processAttempt (outcomes 1) = .error e1 →
        processAttempt (outcomes 2) = .error e2 →
        sendMessage outcomes = (.failed (surfaceMessage e2), 3, [1000, 2000])) := by
  refine ⟨rfl, rfl, ?_, ?_, ?_, ?_⟩
  · intro r h0
    simp [sendMessage, sendLoop, maxRetries, h0]
  · intro e0 r h0 h1
    simp [sendMessage, sendLoop, maxRetries, h0, h1]
  · intro e0 e1 r h0 h1 h2
    simp [sendMessage, sendLoop, maxRetries, h0, h1, h2]
  · intro e0 e1 e2 h0 h1 h2
    simp [sendMessage, sendLoop, maxRetries, h0, h1, h2]

/-- C2 (witness): the spec's end-to-end scenario 2 — HTTP 500 twice, then
200 with `{success: true, response: "Done"}` — resolves with `"Done"`
after 3 attempts and backoffs of 1000 ms and 2000 ms, the two failures
invisible to the caller. -/
theorem sendMessage_bounded_retry_witness :
    sendMessage twoFailuresThenDone = (.ok "Done".toList, 3, [1000, 2000]) :=
  (sendMessage_bounded_retry twoFailuresThenDone).2.2.2.2.1
    (.httpStatusError 500) (.httpStatusError 500) "Done".toList rfl rfl rfl

end Roboto
